import Mathlib

/-!
Verification of the BookVerse core authentication subsystem
(`bookverse_core/auth/oidc.py` and `bookverse_core/auth/jwt_auth.py`).

The Python module keeps three module-level mutable globals
(`_oidc_config`, `_jwks`, `_jwks_last_updated`); we thread them as an
explicit `CacheState`.  Network I/O (`requests.get`) is modelled by an
`Env` oracle describing the outcome of each outbound request, and every
embedded operation additionally returns the number of outbound requests
it issued, so that claims about "no network I/O" and "exactly one fetch"
are statable.  Timestamps are integers (`datetime.now().timestamp()` in
the source); Python exceptions become `Except` values.
-/

namespace BookVerse

/-- OIDC provider metadata document.  The Python code stores the parsed
JSON dict; the only field it ever reads is `jwks_uri` (which may be
absent, hence `Option`).  The remaining fields capture the shape of the
mock document built in development mode. -/
structure OidcConfig where
  issuer : String
  authorizationEndpoint : String
  tokenEndpoint : String
  userinfoEndpoint : String
  jwksUri : Option String
  demoMode : Bool
  deriving DecidableEq, Repr

/-- A JSON Web Key.  `kid` is `key.get("kid")` (absent allowed); the key
material itself is opaque to the code under verification, abstracted as
the identifier `keyId`: a signature verifies against a key iff the token
was signed with that `keyId`. -/
structure Jwk where
  kid : Option String
  keyId : Nat
  deriving DecidableEq, Repr

/-- A JSON Web Key Set: `jwks.get("keys", [])` in stored order. -/
structure Jwks where
  keys : List Jwk
  deriving DecidableEq, Repr

/-- The module-level globals of `oidc.py`: `_oidc_config`, `_jwks`,
`_jwks_last_updated`. -/
structure CacheState where
  oidcConfig : Option OidcConfig
  jwks : Option Jwks
  jwksLastUpdated : Option Int
  deriving DecidableEq, Repr

/-- The initial module state: all three globals are `None`. -/
def CacheState.initial : CacheState :=
  { oidcConfig := none, jwks := none, jwksLastUpdated := none }

/-- Environment oracle: configuration read from environment variables
plus the outcome of each outbound HTTP request the code may issue.
`discoveryResult = none` means the GET of
`{authority}/.well-known/openid_configuration` raises;
`jwksResult uri = none` means the GET of `uri` raises. -/
structure Env where
  devMode : Bool
  authority : String
  audience : String
  jwtAlgorithm : String
  cacheDuration : Int
  discoveryResult : Option OidcConfig
  jwksResult : String → Option Jwks

/-- The HTTP 503 error raised by `oidc.py` (`HTTPException` with
`status_code=503`, detail "Authentication service unavailable"). -/
inductive HttpError where
  | serviceUnavailable
  deriving DecidableEq, Repr

/-- The mock OIDC configuration built by `get_oidc_configuration` when
the discovery endpoint is unreachable in development mode. -/
def mockOidcConfig (authority : String) : OidcConfig :=
  { issuer := authority
    authorizationEndpoint := authority ++ "/auth"
    tokenEndpoint := authority ++ "/token"
    userinfoEndpoint := authority ++ "/userinfo"
    jwksUri := some (authority ++ "/.well-known/jwks.json")
    demoMode := true }

/-- Embedding of `get_oidc_configuration` (oidc.py lines 72-121).  If `_oidc_config`
is cached, return it with no request.  Otherwise GET the discovery
endpoint (one request): on success cache and return the document; on
failure, in development mode cache and return the mock configuration,
otherwise raise HTTP 503 leaving the cache untouched.
Returns (result, new state, number of outbound requests). -/
def get_oidc_configuration (env : Env) (st : CacheState) :
    Except HttpError OidcConfig × CacheState × Nat :=
  match st.oidcConfig with
  | some cfg => (.ok cfg, st, 0)
  | none =>
    match env.discoveryResult with
    | some cfg => (.ok cfg, { st with oidcConfig := some cfg }, 1)
    | none =>
      if env.devMode then
        let cfg := mockOidcConfig env.authority
        (.ok cfg, { st with oidcConfig := some cfg }, 1)
      else
        (.error .serviceUnavailable, st, 1)

/-- The refresh guard of `get_jwks` (oidc.py lines 132-136):
`_jwks is None or _jwks_last_updated is None or
 current_time - _jwks_last_updated > JWKS_CACHE_DURATION`. -/
def jwksNeedsRefresh (env : Env) (st : CacheState) (now : Int) : Bool :=
  match st.jwks, st.jwksLastUpdated with
  | some _, some t => decide (now - t > env.cacheDuration)
  | _, _ => true

/-- The `try` block of `get_jwks` (oidc.py lines 137-148): fetch the
OIDC configuration, read `jwks_uri` (`if not jwks_uri` raises
`ValueError` when the URI is absent *or* falsy, i.e. the empty string,
before any GET), GET it, and on success replace `_jwks` and
`_jwks_last_updated`.  Returns (succeeded, state afterwards, outbound
requests); any exception inside the block yields `false`, with state
mutations made before the raise (the cached configuration)
preserved. -/
def tryRefreshJwks (env : Env) (st : CacheState) (now : Int) :
    Bool × CacheState × Nat :=
  match get_oidc_configuration env st with
  | (.error _, st1, n1) => (false, st1, n1)
  | (.ok cfg, st1, n1) =>
    match cfg.jwksUri with
    | none => (false, st1, n1)
    | some uri =>
      if uri = "" then (false, st1, n1)
      else
        match env.jwksResult uri with
        | none => (false, st1, n1 + 1)
        | some j =>
          (true, { st1 with jwks := some j, jwksLastUpdated := some now }, n1 + 1)

/-- Embedding of `get_jwks` (oidc.py lines 124-159).  When the guard fires, run the
refresh block; if it fails and `_jwks is None`, raise HTTP 503,
otherwise fall through to `return _jwks` (serving the stale set).  When
the guard does not fire, `return _jwks` with no request.  The returned
value is `Option Jwks` because the function body returns the global
`_jwks` as-is. -/
def get_jwks (env : Env) (st : CacheState) (now : Int) :
    Except HttpError (Option Jwks) × CacheState × Nat :=
  if jwksNeedsRefresh env st now then
    match tryRefreshJwks env st now with
    | (true, st1, n) => (.ok st1.jwks, st1, n)
    | (false, st1, n) =>
      match st1.jwks with
      | none => (.error .serviceUnavailable, st1, n)
      | some _ => (.ok st1.jwks, st1, n)
  else
    (.ok st.jwks, st, 0)

/-- Unverified JOSE header of a token: `alg` and optional `kid`. -/
structure TokenHeader where
  alg : String
  kid : Option String
  deriving DecidableEq, Repr

/-- The two `ValueError`s of `get_public_key` (oidc.py lines 166-174),
distinguished by their message. -/
inductive KeyLookupError where
  | missingKid
  | noMatchingKey (kid : String)
  deriving DecidableEq, Repr

/-- The `for` loop of `get_public_key`: first key in stored order whose
`kid` equals the sought one. -/
def findKey (kid : String) : List Jwk → Option Jwk
  | [] => none
  | k :: ks => if k.kid = some kid then some k else findKey kid ks

/-- Embedding of `get_public_key` (oidc.py lines 162-174).  `kid =
token_header.get("kid")`; `if not kid` (absent or falsy, i.e. the empty
string) raises "Token header missing 'kid' field"; otherwise scan
`jwks["keys"]` in order for the first `key.get("kid") == kid`, raising
"No matching key found" when none matches.  Pure: no I/O, no state. -/
def get_public_key (tokenHeader : TokenHeader) (jwks : Jwks) :
    Except KeyLookupError Jwk :=
  match tokenHeader.kid with
  | none => .error .missingKid
  | some kid =>
    if kid = "" then .error .missingKid
    else
      match findKey kid jwks.keys with
      | some k => .ok k
      | none => .error (.noMatchingKey kid)

/-- Embedding of `clear_cache` (oidc.py lines 177-183): reset all three globals. -/
def clear_cache (_st : CacheState) : CacheState :=
  CacheState.initial

/-- JWT claims.  `Option` marks presence of the claim in the token body;
fields are the claims inspected by `jwt_auth.py` (`sub`, `email`,
`name`, `roles`, `scope`, plus `aud`/`iss`/`exp` checked by
`jwt.decode`). -/
structure TokenClaims where
  sub : Option String
  aud : Option String
  iss : Option String
  exp : Option Int
  scope : Option String
  email : Option String
  name : Option String
  roles : List String
  deriving DecidableEq, Repr

/-- A structurally well-formed JWT: unverified header, claims body, and
the abstract identity of the key that produced its signature. -/
structure Token where
  header : TokenHeader
  claims : TokenClaims
  sigKeyId : Nat
  deriving DecidableEq, Repr

/-- The `JWTError` family raised by `jose.jwt.decode`. -/
inductive JoseError where
  | invalidAlgorithm
  | invalidSignature
  | invalidIssuer
  | invalidAudience
  | expiredSignature
  deriving DecidableEq, Repr

/-- Modelled behavior of `jose.jwt.decode(token, key,
algorithms=[JWT_ALGORITHM], audience=OIDC_AUDIENCE,
issuer=OIDC_AUTHORITY)` (external library call at jwt_auth.py lines
184-190): the declared `alg` must be the configured one, the signature
must verify against the supplied key, `iss` must equal the configured
issuer, `aud` must match the configured audience, and `exp` (when
present) must not be in the past; each failure raises a `JWTError`. -/
def jwtDecode (env : Env) (token : Token) (key : Jwk) (now : Int) :
    Except JoseError TokenClaims :=
  if token.header.alg ≠ env.jwtAlgorithm then .error .invalidAlgorithm
  else if token.sigKeyId ≠ key.keyId then .error .invalidSignature
  else if token.claims.iss ≠ some env.authority then .error .invalidIssuer
  else if token.claims.aud ≠ some env.audience then .error .invalidAudience
  else
    match token.claims.exp with
    | some e => if e < now then .error .expiredSignature else .ok token.claims
    | none => .ok token.claims

/-- Accumulator pass over the characters for `pySplit`: `acc` holds the
current word reversed; whitespace closes a word, empty words are
dropped. -/
def pySplitAux : List Char → List Char → List String
  | [], acc => if acc.isEmpty then [] else [⟨acc.reverse⟩]
  | c :: cs, acc =>
    if c.isWhitespace then
      if acc.isEmpty then pySplitAux cs []
      else ⟨acc.reverse⟩ :: pySplitAux cs []
    else pySplitAux cs (c :: acc)

/-- Python `str.split()` with no argument: split on runs of whitespace,
discarding empty pieces. -/
def pySplit (s : String) : List String :=
  pySplitAux s.data []

/-- The scope-list computation shared by `AuthUser.__init__` (jwt_auth.py
line 125) and `validate_jwt_token` (line 195):
`claims.get("scope", "").split() if claims.get("scope") else []` —
a falsy `scope` (absent or empty string) yields `[]`. -/
def scopeList (scope : Option String) : List String :=
  match scope with
  | none => []
  | some s => if s = "" then [] else pySplit s

/-- Embedding of `AuthUser` (jwt_auth.py lines 69-169): read-only view over validated
claims. -/
structure AuthUser where
  claims : TokenClaims
  user_id : Option String
  email : Option String
  name : Option String
  roles : List String
  scopes : List String
  deriving DecidableEq, Repr

/-- Embedding of `AuthUser.__init__` (jwt_auth.py lines 93-125): `user_id` from
`sub`, `email` from `email`, `name` from `name` falling back to `email`,
`roles` from `roles` (default `[]`), `scopes` by splitting `scope`. -/
def AuthUser.ofClaims (c : TokenClaims) : AuthUser :=
  { claims := c
    user_id := c.sub
    email := c.email
    name := match c.name with | some n => some n | none => c.email
    roles := c.roles
    scopes := scopeList c.scope }

/-- Embedding of `AuthUser.has_scope` (jwt_auth.py lines 127-143): membership in the
split scope list. -/
def AuthUser.has_scope (u : AuthUser) (scope : String) : Bool :=
  u.scopes.contains scope

/-- Embedding of `AuthUser.has_role` (jwt_auth.py lines 145-161). -/
def AuthUser.has_role (u : AuthUser) (role : String) : Bool :=
  u.roles.contains role

/-- The two `HTTPException`s raised by `validate_jwt_token`
(jwt_auth.py lines 202-215), distinguished by their `detail`:
`invalidToken` is 401 "Invalid authentication token" (the `JWTError`
handler), `authFailed` is 401 "Authentication failed" (the blanket
`Exception` handler). -/
inductive AuthError where
  | invalidToken
  | authFailed
  deriving DecidableEq, Repr

/-- Embedding of `validate_jwt_token` (jwt_auth.py lines 172-215).  Inside one `try`:
read the unverified header, `get_jwks()`, `get_public_key`,
`jwt.decode`, then require a truthy `sub` and the literal
`"bookverse:api"` scope, returning `AuthUser(claims)`.  A `JWTError`
maps to 401 "Invalid authentication token"; every other exception —
the `ValueError`s of `get_public_key` and of the `sub`/scope checks,
and the `HTTPException` raised by `get_jwks` — is caught by the blanket
handler and maps to 401 "Authentication failed".  There is no cache
clearing and no retry on any path.  Returns (result, new cache state,
outbound requests issued). -/
def validate_jwt_token (env : Env) (st : CacheState) (now : Int)
    (token : Token) : Except AuthError AuthUser × CacheState × Nat :=
  match get_jwks env st now with
  | (.error _, st1, n1) => (.error .authFailed, st1, n1)
  | (.ok none, st1, n1) => (.error .authFailed, st1, n1)
  | (.ok (some jwks), st1, n1) =>
    match get_public_key token.header jwks with
    | .error _ => (.error .authFailed, st1, n1)
    | .ok key =>
      match jwtDecode env token key now with
      | .error _ => (.error .invalidToken, st1, n1)
      | .ok claims =>
        match claims.sub with
        | none => (.error .authFailed, st1, n1)
        | some s =>
          if s = "" then (.error .authFailed, st1, n1)
          else if (scopeList claims.scope).contains "bookverse:api" then
            (.ok (AuthUser.ofClaims claims), st1, n1)
          else
            (.error .authFailed, st1, n1)

/-- Iterated calls to `get_oidc_configuration` in one process: final
state and total number of outbound discovery requests over `n` calls. -/
def oidcConfigCalls (env : Env) : CacheState → Nat → CacheState × Nat
  | st, 0 => (st, 0)
  | st, n + 1 =>
    match get_oidc_configuration env st with
    | (_, st1, k) =>
      match oidcConfigCalls env st1 n with
      | (st2, total) => (st2, k + total)

/-! ### Helper lemmas -/

theorem get_oidc_configuration_jwks_unchanged (env : Env) (st : CacheState) :
    (get_oidc_configuration env st).2.1.jwks = st.jwks ∧
    (get_oidc_configuration env st).2.1.jwksLastUpdated = st.jwksLastUpdated := by
  unfold get_oidc_configuration
  cases h1 : st.oidcConfig <;> cases h2 : env.discoveryResult <;>
    cases h3 : env.devMode <;> simp

theorem tryRefreshJwks_fail_unchanged (env : Env) (st : CacheState) (now : Int)
    (st1 : CacheState) (n : Nat)
    (h : tryRefreshJwks env st now = (false, st1, n)) :
    st1.jwks = st.jwks ∧ st1.jwksLastUpdated = st.jwksLastUpdated := by
  have hst := get_oidc_configuration_jwks_unchanged env st
  unfold tryRefreshJwks at h
  split at h
  · rename_i st2 n2 heq
    rw [heq] at hst
    cases h
    exact hst
  · rename_i cfg st2 n2 heq
    rw [heq] at hst
    split at h
    · cases h; exact hst
    · split at h
      · cases h; exact hst
      · split at h
        · cases h; exact hst
        · cases h

theorem findKey_eq_find? (kid : String) (l : List Jwk) :
    findKey kid l = l.find? (fun key => decide (key.kid = some kid)) := by
  induction l with
  | nil => rfl
  | cons a l ih =>
    by_cases h : a.kid = some kid <;> simp [findKey, List.find?, h, ih]

/-! ### Concrete fixtures for witnesses and counterexamples -/

/-- A sample verification key. -/
def sampleJwk : Jwk := { kid := some "key-2024", keyId := 7 }

/-- A sample non-empty key set. -/
def sampleJwks : Jwks := { keys := [sampleJwk] }

/-- A sample provider metadata document (with a `jwks_uri`). -/
def sampleConfig : OidcConfig := mockOidcConfig "https://dev-auth.bookverse.com"

/-- Production-mode environment in which every outbound request fails. -/
def envAllDown : Env :=
  { devMode := false, authority := "https://dev-auth.bookverse.com",
    audience := "bookverse:api", jwtAlgorithm := "RS256",
    cacheDuration := 3600, discoveryResult := none,
    jwksResult := fun _ => none }

/-- Production-mode environment in which discovery and JWKS fetches
succeed, the JWKS endpoint serving `sampleJwks`. -/
def envUp : Env :=
  { envAllDown with
    discoveryResult := some sampleConfig
    jwksResult := fun _ => some sampleJwks }

/-- A state holding a previously fetched configuration and non-empty key
set, fetched at time 0. -/
def staleState : CacheState :=
  { oidcConfig := some sampleConfig, jwks := some sampleJwks,
    jwksLastUpdated := some 0 }

/-! ### More helper lemmas -/

theorem get_oidc_configuration_cached (env : Env) (st : CacheState)
    (cfg : OidcConfig) (hc : st.oidcConfig = some cfg) :
    get_oidc_configuration env st = (.ok cfg, st, 0) := by
  unfold get_oidc_configuration
  rw [hc]

theorem tryRefreshJwks_requests_pos (env : Env) (st : CacheState) (now : Int)
    (huri : ∀ cfg, st.oidcConfig = some cfg →
      ∃ uri, cfg.jwksUri = some uri ∧ uri ≠ "") :
    (tryRefreshJwks env st now).2.2 ≠ 0 := by
  cases hc : st.oidcConfig with
  | some cfg =>
    obtain ⟨uri, hu, hne⟩ := huri cfg hc
    cases hr : env.jwksResult uri <;>
      simp [tryRefreshJwks, get_oidc_configuration, hc, hu, hne, hr]
  | none =>
    rcases hd : env.discoveryResult with _ | cfg
    · cases hdev : env.devMode
      · simp [tryRefreshJwks, get_oidc_configuration, hc, hd, hdev]
      · by_cases hb : env.authority ++ "/.well-known/jwks.json" = ""
        · simp [tryRefreshJwks, get_oidc_configuration, hc, hd, hdev,
            mockOidcConfig, hb]
        · rcases hr : env.jwksResult (env.authority ++ "/.well-known/jwks.json")
            with _ | j <;>
            simp [tryRefreshJwks, get_oidc_configuration, hc, hd, hdev,
              mockOidcConfig, hb, hr]
    · rcases hu : cfg.jwksUri with _ | uri
      · simp [tryRefreshJwks, get_oidc_configuration, hc, hd, hu]
      · by_cases hb : uri = ""
        · simp [tryRefreshJwks, get_oidc_configuration, hc, hd, hu, hb]
        · cases hr : env.jwksResult uri <;>
            simp [tryRefreshJwks, get_oidc_configuration, hc, hd, hu, hb, hr]

theorem get_jwks_requests_of_refresh (env : Env) (st : CacheState) (now : Int)
    (hneed : jwksNeedsRefresh env st now = true) :
    (get_jwks env st now).2.2 = (tryRefreshJwks env st now).2.2 := by
  rcases hTR : tryRefreshJwks env st now with ⟨b, st1, n⟩
  unfold get_jwks
  rw [hneed, hTR]
  cases b <;> rcases hj : st1.jwks with _ | j <;> simp [hj]

/-! ### Claims -/

/-- A state whose caches were populated at time 100. -/
def freshState : CacheState :=
  { oidcConfig := some sampleConfig, jwks := some sampleJwks,
    jwksLastUpdated := some 100 }

/-- Claims of a token satisfying every check of the validation
pipeline at time 100. -/
def validClaims : TokenClaims :=
  { sub := some "u1", aud := some "bookverse:api",
    iss := some "https://dev-auth.bookverse.com", exp := some 4102444800,
    scope := some "openid bookverse:api", email := some "u1@bookverse.com",
    name := none, roles := ["user"] }

/-- A token signed with `sampleJwk` carrying `validClaims`. -/
def sampleToken : Token :=
  { header := { alg := "RS256", kid := some "key-2024" },
    claims := validClaims, sigKeyId := 7 }

/-- Like `sampleToken` but without the required scope. -/
def missingScopeToken : Token :=
  { sampleToken with claims := { validClaims with scope := some "openid profile" } }

/-- Like `sampleToken` but without a `sub` claim. -/
def missingSubToken : Token :=
  { sampleToken with claims := { validClaims with sub := none } }

/-- A key set containing only a freshly rotated key. -/
def rotatedJwks : Jwks :=
  { keys := [{ kid := some "rotated-2025", keyId := 8 }] }

/-- A valid token signed with the rotated key, whose `kid` is absent
from `sampleJwks`. -/
def rotatedKidToken : Token :=
  { header := { alg := "RS256", kid := some "rotated-2025" },
    claims := validClaims, sigKeyId := 8 }

/-- Environment in which the provider now serves `rotatedJwks`. -/
def envRotated : Env :=
  { envAllDown with
    discoveryResult := some sampleConfig
    jwksResult := fun _ => some rotatedJwks }

/-- C1: for every token whose signing key is selected from the obtained
key set, whose signature/algorithm/issuer/audience/expiry verification
succeeds, whose `sub` is present and non-empty, and whose scope claim
contains the required `"bookverse:api"` scope, `validate_jwt_token`
returns the `AuthUser` built from the claims, whose `user_id` equals the
token's `sub` and whose `has_scope "bookverse:api"` is `true`. -/
theorem C1_valid_token_identity (env : Env) (st : CacheState) (now : Int)
    (token : Token) (st1 : CacheState) (n : Nat) (jwks : Jwks) (key : Jwk)
    (s : String)
    (hjwks : get_jwks env st now = (.ok (some jwks), st1, n))
    (hkey : get_public_key token.header jwks = .ok key)
    (hdec : jwtDecode env token key now = .ok token.claims)
    (hsub : token.claims.sub = some s)
    (hs : s ≠ "")
    (hscope : (scopeList token.claims.scope).contains "bookverse:api" = true) :
    validate_jwt_token env st now token =
      (.ok (AuthUser.ofClaims token.claims), st1, n) ∧
    (AuthUser.ofClaims token.claims).user_id = some s ∧
    (AuthUser.ofClaims token.claims).has_scope "bookverse:api" = true := by
  have hmem : "bookverse:api" ∈ scopeList token.claims.scope := by
    simpa using hscope
  refine ⟨?_, ?_, ?_⟩
  · unfold validate_jwt_token
    rw [hjwks]
    simp only [hkey, hdec, hsub]
    simp [hs, hmem]
  · simp [AuthUser.ofClaims, hsub]
  · exact hscope

/-- Witness for C1: the spec's valid-token scenario — `sub:"u1"`,
audience and issuer as configured, the required scope present, a future
expiry, signed with the key whose `kid` is in the cached JWKS. -/
theorem C1_valid_token_identity_witness :
    validate_jwt_token envUp freshState 100 sampleToken =
      (.ok (AuthUser.ofClaims validClaims), freshState, 0) ∧
    (AuthUser.ofClaims validClaims).user_id = some "u1" ∧
    (AuthUser.ofClaims validClaims).has_scope "bookverse:api" = true :=
  C1_valid_token_identity envUp freshState 100 sampleToken freshState 0
    sampleJwks sampleJwk "u1" rfl rfl rfl rfl (by decide) (by decide)

/-- C2 as stated is false: with a fresh cache whose key set lacks the
token's `kid` — even though the provider is reachable and now serves a
set containing that `kid` — `validate_jwt_token` performs zero cache
refreshes (no `clear_cache`, no re-fetch: zero outbound requests, state
unchanged) and surfaces the generic 401 "Authentication failed", not a
distinct unknown-signing-key failure after a forced refresh. -/
theorem C2_counterexample :
    findKey "rotated-2025" sampleJwks.keys = none ∧
    (envRotated.jwksResult "any-uri" = some rotatedJwks) ∧
    validate_jwt_token envRotated freshState 100 rotatedKidToken =
      (.error .authFailed, freshState, 0) := by
  refine ⟨rfl, rfl, rfl⟩

/-- C2 amended: when the token's `kid` (present and non-empty) matches
no key of the obtained key set, `validate_jwt_token` fails immediately
with the generic 401 "Authentication failed": the `ValueError` of
`get_public_key` is swallowed by the blanket handler, no cache clearing
or re-fetch happens, and the final state and request count are exactly
those of the initial `get_jwks` call. -/
theorem C2_no_refresh_on_unknown_kid (env : Env) (st : CacheState)
    (now : Int) (token : Token) (st1 : CacheState) (n : Nat) (jwks : Jwks)
    (k : String)
    (hjwks : get_jwks env st now = (.ok (some jwks), st1, n))
    (hkid : token.header.kid = some k)
    (hk : k ≠ "")
    (hmiss : findKey k jwks.keys = none) :
    validate_jwt_token env st now token = (.error .authFailed, st1, n) := by
  have hkey : get_public_key token.header jwks = .error (.noMatchingKey k) := by
    unfold get_public_key
    rw [hkid]
    simp [hk, hmiss]
  unfold validate_jwt_token
  rw [hjwks]
  simp [hkey]

/-- Witness for C2 amended: an unknown `kid` against the fresh cache,
with every further request failing. -/
theorem C2_no_refresh_on_unknown_kid_witness :
    validate_jwt_token envAllDown freshState 100 rotatedKidToken =
      (.error .authFailed, freshState, 0) :=
  C2_no_refresh_on_unknown_kid envAllDown freshState 100 rotatedKidToken
    freshState 0 sampleJwks "rotated-2025" rfl rfl (by decide) rfl

/-- C9 as stated is false: a token that passes every check except the
required scope and a token missing its `sub` claim (a different failure
kind in the spec's taxonomy) produce the *same* error value — the
generic 401 "Authentication failed" from the blanket `except` handler —
so the missing-scope failure is not distinguishable by the caller. -/
theorem C9_counterexample :
    (validate_jwt_token envUp freshState 100 missingScopeToken).1 =
      .error .authFailed ∧
    (validate_jwt_token envUp freshState 100 missingSubToken).1 =
      .error .authFailed ∧
    (validate_jwt_token envUp freshState 100 missingScopeToken).1 =
      (validate_jwt_token envUp freshState 100 missingSubToken).1 := by
  refine ⟨rfl, rfl, rfl⟩

/-- C9 amended: a token passing signature, issuer, audience, expiry and
`sub` checks whose space-separated scope claim lacks `"bookverse:api"`
is rejected, but with the generic 401 "Authentication failed" shared
with the missing-`sub` and key-lookup failures (the `ValueError` is
caught by the blanket handler), not with a distinct missing-scope error
kind; only `jwt.decode` failures get the distinct 401 "Invalid
authentication token". -/
theorem C9_missing_scope_generic_error (env : Env) (st : CacheState)
    (now : Int) (token : Token) (st1 : CacheState) (n : Nat) (jwks : Jwks)
    (key : Jwk) (s : String)
    (hjwks : get_jwks env st now = (.ok (some jwks), st1, n))
    (hkey : get_public_key token.header jwks = .ok key)
    (hdec : jwtDecode env token key now = .ok token.claims)
    (hsub : token.claims.sub = some s)
    (hs : s ≠ "")
    (hscope : (scopeList token.claims.scope).contains "bookverse:api" = false) :
    validate_jwt_token env st now token = (.error .authFailed, st1, n) := by
  have hmem : "bookverse:api" ∉ scopeList token.claims.scope := by
    simpa using hscope
  unfold validate_jwt_token
  rw [hjwks]
  simp only [hkey, hdec, hsub]
  simp [hs, hmem]

/-- Witness for C9 amended: the missing-scope token against the fresh
cache. -/
theorem C9_missing_scope_generic_error_witness :
    validate_jwt_token envUp freshState 100 missingScopeToken =
      (.error .authFailed, freshState, 0) :=
  C9_missing_scope_generic_error envUp freshState 100 missingScopeToken
    freshState 0 sampleJwks sampleJwk "u1" rfl rfl rfl rfl (by decide)
    (by decide)

/-- C4: when a JWKS refresh is attempted and its fetch fails, `get_jwks`
serves the previously cached non-empty key set unchanged when one
exists, and raises HTTP 503 when no previous set exists. -/
theorem C4_stale_serving_or_503 (env : Env) (st : CacheState) (now : Int)
    (st1 : CacheState) (n : Nat)
    (hneed : jwksNeedsRefresh env st now = true)
    (hfail : tryRefreshJwks env st now = (false, st1, n)) :
    (∀ j, st.jwks = some j → j.keys ≠ [] →
      get_jwks env st now = (.ok (some j), st1, n)) ∧
    (st.jwks = none →
      get_jwks env st now = (.error .serviceUnavailable, st1, n)) := by
  have hpres := tryRefreshJwks_fail_unchanged env st now st1 n hfail
  constructor
  · intro j hj _
    unfold get_jwks
    rw [hneed, hfail]
    have hj1 : st1.jwks = some j := hpres.1.trans hj
    simp [hj1]
  · intro hj
    unfold get_jwks
    rw [hneed, hfail]
    have hj1 : st1.jwks = none := hpres.1.trans hj
    simp [hj1]

/-- Witness for C4: at time 5000 the set fetched at time 0 is stale, the
refresh fails (every request fails), and the cached non-empty set is
served. -/
theorem C4_stale_serving_or_503_witness :
    get_jwks envAllDown staleState 5000 =
      (.ok (some sampleJwks), staleState, 1) :=
  (C4_stale_serving_or_503 envAllDown staleState 5000 staleState 1
      rfl rfl).1 sampleJwks rfl (by decide)

/-- C5 as stated is false: a *successful* refresh whose endpoint returns
an empty key set replaces a cached non-empty key set with the empty one.
Starting from a non-empty cached set fetched at time 0, a refresh at
time 5000 against an endpoint serving `{"keys": []}` leaves the cache
holding the empty set. -/
theorem C5_counterexample :
    staleState.jwks = some sampleJwks ∧ sampleJwks.keys ≠ [] ∧
    (get_jwks { envAllDown with jwksResult := fun _ => some { keys := [] } }
        staleState 5000).2.1.jwks = some { keys := [] } := by
  refine ⟨rfl, by decide, ?_⟩
  rfl

/-- C5 amended: a *failed* refresh never replaces the cached key set —
after any `get_jwks` call whose refresh block did not succeed, the
cached set is exactly what it was before (so a non-empty set is never
erased by a failure); only a successful fetch replaces it, with whatever
the endpoint returned. -/
theorem C5_failed_refresh_preserves_keys (env : Env) (st : CacheState)
    (now : Int) (hfail : (tryRefreshJwks env st now).1 = false) :
    (get_jwks env st now).2.1.jwks = st.jwks := by
  rcases hTR : tryRefreshJwks env st now with ⟨b, st1, n⟩
  rw [hTR] at hfail
  cases b with
  | true => simp at hfail
  | false =>
    have hpres := tryRefreshJwks_fail_unchanged env st now st1 n hTR
    unfold get_jwks
    rw [hTR]
    split
    · rw [← hpres.1]
      show (match st1.jwks with
          | none =>
            ((Except.error HttpError.serviceUnavailable :
                Except HttpError (Option Jwks)), st1, n)
          | some _ => (Except.ok st1.jwks, st1, n)).2.1.jwks = st1.jwks
      cases hj : st1.jwks <;> exact hj
    · rfl

/-- Witness for C5 amended: the failed refresh of the C4 scenario leaves
the cached set untouched. -/
theorem C5_failed_refresh_preserves_keys_witness :
    (get_jwks envAllDown staleState 5000).2.1.jwks = staleState.jwks :=
  C5_failed_refresh_preserves_keys envAllDown staleState 5000 rfl

/-- C6: over states whose cache fields are in sync (key set and
timestamp absent together, as every reachable state has them) and whose
cached metadata carries a truthy `jwks_uri` (present and non-empty —
otherwise the refresh block raises before any GET), `get_jwks` issues
outbound requests iff no key set is cached or `now - fetchedAt` strictly
exceeds the cache duration; and a call at a non-expired timestamp
performs no network I/O, returns the cached set, and leaves the state
unchanged. -/
theorem C6_refresh_condition (env : Env) (st : CacheState) (now : Int)
    (hsync : st.jwks = none ↔ st.jwksLastUpdated = none)
    (huri : ∀ cfg, st.oidcConfig = some cfg →
      ∃ uri, cfg.jwksUri = some uri ∧ uri ≠ "") :
    ((get_jwks env st now).2.2 ≠ 0 ↔
      st.jwks = none ∨
        ∃ t, st.jwksLastUpdated = some t ∧ now - t > env.cacheDuration) ∧
    (∀ j t, st.jwks = some j → st.jwksLastUpdated = some t →
      now - t ≤ env.cacheDuration →
      get_jwks env st now = (.ok (some j), st, 0)) := by
  have hcond : jwksNeedsRefresh env st now = true ↔
      (st.jwks = none ∨
        ∃ t, st.jwksLastUpdated = some t ∧ now - t > env.cacheDuration) := by
    unfold jwksNeedsRefresh
    rcases hj : st.jwks with _ | j <;> rcases ht : st.jwksLastUpdated with _ | t <;>
      simp_all
  constructor
  · cases hneed : jwksNeedsRefresh env st now with
    | true =>
      rw [hneed] at hcond
      rw [get_jwks_requests_of_refresh env st now hneed]
      simp only [true_iff] at hcond
      simp [tryRefreshJwks_requests_pos env st now huri, hcond]
    | false =>
      rw [hneed] at hcond
      simp only [Bool.false_eq_true, false_iff] at hcond
      unfold get_jwks
      rw [hneed]
      simpa using hcond
  · intro j t hj ht hfresh
    have hneed : jwksNeedsRefresh env st now = false := by
      unfold jwksNeedsRefresh
      rw [hj, ht]
      simpa using not_lt.mpr hfresh
    unfold get_jwks
    rw [hneed, hj]
    simp [hj]

/-- Witness for C6: immediately after a fetch at time 100 (duration
3600), a call at time 100 returns the cached set with zero outbound
requests. -/
theorem C6_refresh_condition_witness :
    get_jwks envAllDown
        { oidcConfig := some sampleConfig, jwks := some sampleJwks,
          jwksLastUpdated := some 100 } 100 =
      (.ok (some sampleJwks),
        { oidcConfig := some sampleConfig, jwks := some sampleJwks,
          jwksLastUpdated := some 100 }, 0) :=
  (C6_refresh_condition envAllDown
      { oidcConfig := some sampleConfig, jwks := some sampleJwks,
        jwksLastUpdated := some 100 } 100
      (by simp)
      (by intro cfg hcfg; cases hcfg; exact ⟨_, rfl, by decide⟩)).2
    sampleJwks 100 rfl rfl (by decide)

/-- C7 as stated is false: when the first discovery fetch fails in
production mode nothing is cached, so each of two calls issues its own
outbound request — two requests, not exactly one, and neither call
returns metadata. -/
theorem C7_counterexample :
    (oidcConfigCalls envAllDown CacheState.initial 2).2 = 2 ∧
    (oidcConfigCalls envAllDown CacheState.initial 2).2 ≠ 1 ∧
    (get_oidc_configuration envAllDown CacheState.initial).1 =
      .error .serviceUnavailable := by
  refine ⟨rfl, by decide, rfl⟩

/-- C7 amended: memoization holds from the first *successful* call on —
once a call returns metadata `cfg`, every later call (under any network
conditions) returns the same cached `cfg` with zero outbound requests
and an unchanged state, and any number of further calls still issues
zero requests in total; while calls keep failing (production mode,
discovery down), each failing call issues one request of its own. -/
theorem C7_memoized_after_success (env : Env) (st st1 : CacheState)
    (cfg : OidcConfig) (k : Nat)
    (h : get_oidc_configuration env st = (.ok cfg, st1, k)) :
    (∀ env2 : Env, get_oidc_configuration env2 st1 = (.ok cfg, st1, 0)) ∧
    (∀ env2 : Env, ∀ n, oidcConfigCalls env2 st1 n = (st1, 0)) := by
  have hcached : st1.oidcConfig = some cfg := by
    unfold get_oidc_configuration at h
    split at h
    · rename_i c hc
      cases h
      exact hc
    · rename_i hc
      split at h
      · cases h
        rfl
      · split at h
        · cases h
          rfl
        · cases h
  have hone : ∀ env2 : Env, get_oidc_configuration env2 st1 = (.ok cfg, st1, 0) :=
    fun env2 => get_oidc_configuration_cached env2 st1 cfg hcached
  refine ⟨hone, fun env2 n => ?_⟩
  induction n with
  | zero => rfl
  | succ m ih =>
    unfold oidcConfigCalls
    rw [hone env2]
    simp [ih]

/-- Witness for C7 amended: after one successful discovery call, a later
call in an environment where every request fails still returns the
cached document with zero requests. -/
theorem C7_memoized_after_success_witness :
    get_oidc_configuration envAllDown
        { CacheState.initial with oidcConfig := some sampleConfig } =
      (.ok sampleConfig,
        { CacheState.initial with oidcConfig := some sampleConfig }, 0) :=
  (C7_memoized_after_success envUp CacheState.initial
      { CacheState.initial with oidcConfig := some sampleConfig }
      sampleConfig 1 rfl).1 envAllDown

/-- C10: for every key set and any declared algorithm, `get_public_key`
on a header whose `kid` is the empty string fails with the missing-kid
error (`ValueError` "Token header missing 'kid' field"), never with the
no-matching-key error — even when the key set contains a key whose `kid`
is the empty string — because Python's `if not kid` treats the empty
string like an absent `kid`. -/
theorem C10_empty_kid_treated_as_missing (alg : String) (jwks : Jwks) :
    get_public_key { alg := alg, kid := some "" } jwks =
      .error .missingKid := by
  simp [get_public_key]

/-- C8: key selection is a pure function of header and key set: a header
without a (truthy) `kid` fails with the missing-kid error; otherwise the
result is exactly the first key in stored order whose `kid` equals the
header's, the no-matching-key error when none matches; any key returned
carries the header's `kid` (so there is no fallback to the first key or
to an algorithm-matched key). -/
theorem C8_key_selection_characterized (h : TokenHeader) (jwks : Jwks) :
    (h.kid = none ∨ h.kid = some "" →
      get_public_key h jwks = .error .missingKid) ∧
    (∀ k, h.kid = some k → k ≠ "" →
      get_public_key h jwks =
        match jwks.keys.find? (fun key => decide (key.kid = some k)) with
        | some key => .ok key
        | none => .error (.noMatchingKey k)) ∧
    (∀ key, get_public_key h jwks = .ok key → key.kid = h.kid) := by
  refine ⟨?_, ?_, ?_⟩
  · rintro (hk | hk) <;> simp [get_public_key, hk]
  · intro k hk hne
    rw [get_public_key, hk, ← findKey_eq_find?]
    simp only [if_neg hne]
  · intro key hkey
    unfold get_public_key at hkey
    split at hkey
    · cases hkey
    · rename_i k hk
      split at hkey
      · cases hkey
      · split at hkey
        · rename_i k2 hfind
          cases hkey
          rw [hk]
          have : ∀ l : List Jwk, findKey k l = some key → key.kid = some k := by
            intro l
            induction l with
            | nil => intro hc; cases hc
            | cons a l ih =>
              intro hc
              unfold findKey at hc
              split at hc
              · rename_i ha
                cases hc
                exact ha
              · exact ih hc
          exact this jwks.keys hfind
        · cases hkey

/-- Witness for C8 at a concrete header and key set: the second key of
the set is selected because its `kid` matches. -/
theorem C8_key_selection_characterized_witness :
    get_public_key { alg := "RS256", kid := some "kid1" }
        { keys := [{ kid := some "kid0", keyId := 0 },
                   { kid := some "kid1", keyId := 1 }] } =
      .ok { kid := some "kid1", keyId := 1 } := by
  have h := (C8_key_selection_characterized
      { alg := "RS256", kid := some "kid1" }
      { keys := [{ kid := some "kid0", keyId := 0 },
                 { kid := some "kid1", keyId := 1 }] }).2.1
      "kid1" rfl (by decide)
  simpa using h

/-- C3: with an empty configuration cache and the discovery endpoint
unreachable, `get_oidc_configuration` in development mode returns (and
caches) the synthetic metadata document — issuer equal to the configured
authority, the standard relative endpoint paths, marked `demo_mode` —
without raising; with development mode off it raises HTTP 503 and leaves
the cache untouched, substituting no synthetic metadata. -/
theorem C3_discovery_down (env : Env) (st : CacheState)
    (hcache : st.oidcConfig = none)
    (hdown : env.discoveryResult = none) :
    (env.devMode = true →
      get_oidc_configuration env st =
        (.ok (mockOidcConfig env.authority),
          { st with oidcConfig := some (mockOidcConfig env.authority) }, 1) ∧
      (mockOidcConfig env.authority).issuer = env.authority ∧
      (mockOidcConfig env.authority).demoMode = true ∧
      (mockOidcConfig env.authority).authorizationEndpoint
        = env.authority ++ "/auth" ∧
      (mockOidcConfig env.authority).tokenEndpoint
        = env.authority ++ "/token" ∧
      (mockOidcConfig env.authority).jwksUri
        = some (env.authority ++ "/.well-known/jwks.json")) ∧
    (env.devMode = false →
      get_oidc_configuration env st = (.error .serviceUnavailable, st, 1)) := by
  constructor
  · intro hdev
    refine ⟨?_, rfl, rfl, rfl, rfl, rfl⟩
    unfold get_oidc_configuration
    rw [hcache, hdown, hdev]
    simp
  · intro hdev
    unfold get_oidc_configuration
    rw [hcache, hdown, hdev]
    simp

/-- Witness for C3: a concrete unreachable environment, exercised in
development mode. -/
theorem C3_discovery_down_witness :
    get_oidc_configuration
        { devMode := true, authority := "https://dev-auth.bookverse.com",
          audience := "bookverse:api", jwtAlgorithm := "RS256",
          cacheDuration := 3600, discoveryResult := none,
          jwksResult := fun _ => none }
        CacheState.initial =
      (.ok (mockOidcConfig "https://dev-auth.bookverse.com"),
        { CacheState.initial with
            oidcConfig := some (mockOidcConfig "https://dev-auth.bookverse.com") },
        1) :=
  ((C3_discovery_down
      { devMode := true, authority := "https://dev-auth.bookverse.com",
        audience := "bookverse:api", jwtAlgorithm := "RS256",
        cacheDuration := 3600, discoveryResult := none,
        jwksResult := fun _ => none }
      CacheState.initial rfl rfl).1 rfl).1

end BookVerse
